import Mathlib

/-!
Verification of the q2-deblur plugin (`q2_deblur/plugin_setup.py`).

The plugin wraps the external `deblur` binary: it builds a command line,
runs the process inside a temporary directory, loads the produced
`reference-hit.biom` table, cleans the sample identifiers, optionally
replaces every feature identifier by the MD5 digest of the sequence, and
returns the table together with the matching representative sequences.

This file embeds that pipeline shallowly:
* Python strings are Lean `String`s; byte strings are `List Nat`.
* `hashlib.md5(...).hexdigest()` is implemented from RFC 1321 over `Nat`
  with explicit reduction modulo 2 ^ 32.
* `str.split` is implemented with Python semantics.
* The biom table is a structure carrying the two identifier axes and the
  count matrix.  `biom.load_table` validates a parsed file (the Table
  constructor checks that identifiers on each axis are unique), while
  `biom.Table.update_ids(inplace=True)` merely reassigns the identifiers
  of an axis and reindexes, with no uniqueness check of its own, so a
  mapping that collapses identifiers silently yields a duplicated axis.
* The external world of one invocation (exit status of the subprocess and
  the content of the `reference-hit.biom` file it may have produced) is a
  structure of inputs; fallible Python code returns `Except`.
* The `with tempfile.TemporaryDirectory()` block and the subprocess call
  are reflected in an event trace so that resource lifetime is visible.
-/

/-- UTF-8 encoding of one Unicode code point, as in RFC 3629. -/
def utf8EncodeChar (n : Nat) : List Nat :=
  if n < 128 then [n]
  else if n < 2048 then [192 + n / 64, 128 + n % 64]
  else if n < 65536 then [224 + n / 4096, 128 + n / 64 % 64, 128 + n % 64]
  else [240 + n / 262144, 128 + n / 4096 % 64, 128 + n / 64 % 64, 128 + n % 64]

/-- Model of Python `s.encode(utf-8)`: the UTF-8 byte string of `s`. -/
def utf8Encode (s : String) : List Nat :=
  (s.data.map (fun c => utf8EncodeChar c.toNat)).flatten

/-- The word modulus of MD5, 2 ^ 32. -/
def w32 : Nat := 4294967296

/-- Rotate a 32-bit word left by `n` bits. -/
def rotl32 (x n : Nat) : Nat :=
  ((x <<< n) ||| (x >>> (32 - n))) % w32

/-- MD5 round function F (RFC 1321). -/
def md5F (b c d : Nat) : Nat := (b &&& c) ||| ((4294967295 ^^^ b) &&& d)

/-- MD5 round function G (RFC 1321). -/
def md5G (b c d : Nat) : Nat := (d &&& b) ||| ((4294967295 ^^^ d) &&& c)

/-- MD5 round function H (RFC 1321). -/
def md5H (b c d : Nat) : Nat := b ^^^ c ^^^ d

/-- MD5 round function I (RFC 1321). -/
def md5I (b c d : Nat) : Nat := c ^^^ (b ||| (4294967295 ^^^ d))

/-- The 64 MD5 sine-derived constants (RFC 1321). -/
def md5K : List Nat :=
  [3614090360, 3905402710, 606105819, 3250441966,
   4118548399, 1200080426, 2821735955, 4249261313,
   1770035416, 2336552879, 4294925233, 2304563134,
   1804603682, 4254626195, 2792965006, 1236535329,
   4129170786, 3225465664, 643717713, 3921069994,
   3593408605, 38016083, 3634488961, 3889429448,
   568446438, 3275163606, 4107603335, 1163531501,
   2850285829, 4243563512, 1735328473, 2368359562,
   4294588738, 2272392833, 1839030562, 4259657740,
   2763975236, 1272893353, 4139469664, 3200236656,
   681279174, 3936430074, 3572445317, 76029189,
   3654602809, 3873151461, 530742520, 3299628645,
   4096336452, 1126891415, 2878612391, 4237533241,
   1700485571, 2399980690, 4293915773, 2240044497,
   1873313359, 4264355552, 2734768916, 1309151649,
   4149444226, 3174756917, 718787259, 3951481745]

/-- The 64 MD5 per-round left-rotation amounts (RFC 1321). -/
def md5S : List Nat :=
  [7, 12, 17, 22, 7, 12, 17, 22, 7, 12, 17, 22, 7, 12, 17, 22,
   5, 9, 14, 20, 5, 9, 14, 20, 5, 9, 14, 20, 5, 9, 14, 20,
   4, 11, 16, 23, 4, 11, 16, 23, 4, 11, 16, 23, 4, 11, 16, 23,
   6, 10, 15, 21, 6, 10, 15, 21, 6, 10, 15, 21, 6, 10, 15, 21]

/-- The running MD5 state: four 32-bit words. -/
structure MD5State where
  a : Nat
  b : Nat
  c : Nat
  d : Nat
deriving DecidableEq

/-- The MD5 initialisation vector (RFC 1321). -/
def md5Init : MD5State := MD5State.mk 1732584193 4023233417 2562383102 271733878

/-- Group a byte string into 32-bit words, little-endian (RFC 1321). -/
def leWords : List Nat → List Nat
  | b0 :: b1 :: b2 :: b3 :: rest =>
      (b0 + 256 * (b1 + 256 * (b2 + 256 * b3))) :: leWords rest
  | _ => []

/-- One of the 64 MD5 steps on a 16-word block `m`. -/
def md5Step (m : List Nat) (st : MD5State) (i : Nat) : MD5State :=
  let f :=
    if i < 16 then md5F st.b st.c st.d
    else if i < 32 then md5G st.b st.c st.d
    else if i < 48 then md5H st.b st.c st.d
    else md5I st.b st.c st.d
  let g :=
    if i < 16 then i
    else if i < 32 then (5 * i + 1) % 16
    else if i < 48 then (3 * i + 5) % 16
    else (7 * i) % 16
  let x := (st.a + f + md5K.getD i 0 + m.getD g 0) % w32
  MD5State.mk st.d ((st.b + rotl32 x (md5S.getD i 0)) % w32) st.b st.c

/-- Process one 64-byte block of the padded message. -/
def md5Compress (st : MD5State) (chunk : List Nat) : MD5State :=
  let m := leWords chunk
  let r := (List.range 64).foldl (md5Step m) st
  MD5State.mk ((st.a + r.a) % w32) ((st.b + r.b) % w32)
    ((st.c + r.c) % w32) ((st.d + r.d) % w32)

/-- The 8-byte little-endian rendering of a 64-bit length field. -/
def le8 (x : Nat) : List Nat :=
  [x % 256, x / 256 % 256, x / 65536 % 256, x / 16777216 % 256,
   x / 4294967296 % 256, x / 1099511627776 % 256,
   x / 281474976710656 % 256, x / 72057594037927936 % 256]

/-- MD5 padding: a 1-bit, zeros to 56 mod 64, then the bit length (RFC 1321). -/
def md5Pad (msg : List Nat) : List Nat :=
  let len := msg.length
  let zeros := (120 - (len + 1) % 64) % 64
  msg ++ [128] ++ List.replicate zeros 0 ++ le8 ((len * 8) % 18446744073709551616)

/-- Fuel-driven grouping of a byte string into 64-byte blocks. -/
def chunksAux : Nat → List Nat → List (List Nat)
  | 0, _ => []
  | _, [] => []
  | fuel + 1, b :: rest =>
      ((b :: rest).take 64) :: chunksAux fuel ((b :: rest).drop 64)

/-- Group a byte string into 64-byte blocks. -/
def chunks64 (l : List Nat) : List (List Nat) := chunksAux l.length l

/-- The 4-byte little-endian rendering of one 32-bit word. -/
def le4 (x : Nat) : List Nat :=
  [x % 256, x / 256 % 256, x / 65536 % 256, x / 16777216 % 256]

/-- Serialise the final MD5 state to the 16 digest bytes. -/
def md5Final (st : MD5State) : List Nat :=
  le4 st.a ++ le4 st.b ++ le4 st.c ++ le4 st.d

/-- The 16-byte MD5 digest of a byte string (RFC 1321). -/
def md5Digest (msg : List Nat) : List Nat :=
  md5Final ((chunks64 (md5Pad msg)).foldl md5Compress md5Init)

/-- Lower-case hexadecimal digit for a value below 16. -/
def hexDigitChar (n : Nat) : Char :=
  if n < 10 then Char.ofNat (48 + n) else Char.ofNat (87 + n)

/-- Two lower-case hexadecimal characters for one byte. -/
def byteHexChars (b : Nat) : List Char :=
  [hexDigitChar (b / 16 % 16), hexDigitChar (b % 16)]

/-- Model of Python `hashlib.md5(s.encode(utf-8)).hexdigest()`. -/
def md5hex (s : String) : String :=
  String.mk ((md5Digest (utf8Encode s)).map byteHexChars).flatten

/-- Model of Python single-character `str.split`: splitting the empty
string gives one empty field, and every occurrence of the separator closes
the current field and opens a new one. -/
def pySplit (sep : Char) : List Char → List (List Char)
  | [] => [[]]
  | c :: rest =>
    if c = sep then [] :: pySplit sep rest
    else
      match pySplit sep rest with
      | [] => [[c]]
      | t :: ts => (c :: t) :: ts

/-- Model of Python `s.split(sep)[0]`: the leading token of `s` before the
first occurrence of `sep`. -/
def pySplitFirst (sep : Char) (s : String) : String :=
  String.mk ((pySplit sep s.data).headD [])

/-- The axes of a biom table. -/
inductive BiomAxis where
  | sample
  | observation
deriving DecidableEq

/-- A biom feature table: the sample axis, the observation (feature) axis,
and the count matrix (one row of counts per observation). -/
structure BiomTable where
  sampleIds : List String
  obsIds : List String
  data : List (List Nat)
deriving DecidableEq

/-- The identifiers of a table along one axis (`biom.Table.ids`). -/
def BiomTable.ids (t : BiomTable) : BiomAxis → List String
  | .sample => t.sampleIds
  | .observation => t.obsIds

/-- Errors of the embedded Python code. -/
inductive PyError where
  | calledProcessError (returncode : Nat)
  | ioError (msg : String)
  | tableException (msg : String)
deriving DecidableEq

/-- Model of `biom.Table.update_ids(id_map, axis, inplace=True)`: every
identifier on the axis is replaced by its image under the mapping and the
axis is reassigned.  The `strict` lookup error never fires here because
both callers build the mapping over exactly the identifiers of the axis.
No uniqueness check is performed — the duplicate-id validation of the
library runs only in the `Table` constructor, not in the in-place update —
so a mapping that collapses identifiers yields a duplicated axis. -/
def BiomTable.update_ids (t : BiomTable) (id_map : String → String)
    (axis : BiomAxis) : BiomTable :=
  match axis with
  | .sample => BiomTable.mk ((t.ids .sample).map id_map) t.obsIds t.data
  | .observation => BiomTable.mk t.sampleIds ((t.ids .observation).map id_map) t.data

/-- The externally visible facts of one `deblur workflow` run: the exit
status of the subprocess and the `reference-hit.biom` table it may have
left in the output directory (`none` when the file is missing). -/
structure ExtEnv where
  returncode : Nat
  referenceHitBiom : Option BiomTable
deriving DecidableEq

/-- Model of `subprocess.run(cmd, check=True)`: a zero exit status
returns, any other status raises `CalledProcessError`. -/
def subprocess_run (env : ExtEnv) : Except PyError Unit :=
  if env.returncode = 0 then .ok () else .error (.calledProcessError env.returncode)

/-- Model of `biom.load_table` on the `reference-hit.biom` path: a missing
file is an I/O error, and the loaded table satisfies the BIOM-format
invariant that the identifiers of each axis are unique (the library
rejects files violating it while parsing). -/
def biom_load_table (file : Option BiomTable) : Except PyError BiomTable :=
  match file with
  | none => .error (.ioError "reference-hit.biom")
  | some table =>
    if table.sampleIds.Nodup ∧ table.obsIds.Nodup then .ok table
    else .error (.tableException "Duplicate ids")

/-- Embedding of `_load_table`: load the table and remove extraneous
filename bits from the sample ids by keeping only the part of each sample
id before the first underscore. -/
def _load_table (file : Option BiomTable) : Except PyError BiomTable :=
  match biom_load_table file with
  | .error e => .error e
  | .ok table => .ok (table.update_ids (fun id_ => pySplitFirst '_' id_) .sample)

/-- Embedding of `_hash_ids`: compute the MD5 of every sequence, update
the table in place, and return the mapping.  The mapping is the Python
dict comprehension over the observation axis; the identifiers of that axis
are unique, so the dict holds one entry per identifier in axis order.  The
in-place mutation of the table becomes explicit state passing. -/
def _hash_ids (table : BiomTable) : List (String × String) × BiomTable :=
  ((table.ids .observation).map (fun id_ => (id_, md5hex id_)),
   table.update_ids (fun id_ => md5hex id_) .observation)

/-- Model of a Python float parameter by the string `str()` renders it to;
the code applies no operation to these parameters other than `str()`. -/
structure PyFloat where
  str : String
deriving DecidableEq

/-- The run parameters of `_denoise_helper` (and of the two public
operations, which forward them unchanged). -/
structure DenoiseParams where
  trim_length : Int
  mean_error : PyFloat
  indel_prob : PyFloat
  indel_max : Int
  min_reads : Int
  min_size : Int
  jobs_to_start : Int
  hashed_feature_ids : Bool
deriving DecidableEq

/-- The argument list `cmd` that `_denoise_helper` builds for the external
process; `str` of an `Int` is decimal with a leading minus sign, exactly
Python `str(int)`. -/
def deblurCmd (seqs_fp : String) (tmp : String) (p : DenoiseParams)
    (reference_seqs : Option String) : List String :=
  ["deblur", "workflow",
   "--seqs-fp", seqs_fp,
   "--output-dir", tmp,
   "--mean-error", p.mean_error.str,
   "--indel-prob", p.indel_prob.str,
   "--indel-max", toString p.indel_max,
   "--trim-length", toString p.trim_length,
   "--min-reads", toString p.min_reads,
   "--min-size", toString p.min_size,
   "-w"] ++
  (match reference_seqs with
   | none => []
   | some r => ["--pos-ref-fp", r])

/-- The value-level steps of `_denoise_helper` after the command has been
issued: require a zero exit status, load and clean the table, then build
the observation mapping under the selected feature-id policy.  The
returned list is the content of the `DNAIterator`: one (sequence, id) pair
per entry of `obs_map`, in order. -/
def denoiseSteps (env : ExtEnv) (hashed_feature_ids : Bool) :
    Except PyError (BiomTable × List (String × String)) :=
  match subprocess_run env with
  | .error e => .error e
  | .ok _ =>
    match _load_table env.referenceHitBiom with
    | .error e => .error e
    | .ok table =>
      if hashed_feature_ids then
        let r := _hash_ids table
        .ok (r.2, r.1)
      else
        .ok (table, (table.ids .observation).map (fun i => (i, i)))

/-- Filesystem and process events of one invocation. -/
inductive FsEvent where
  | tmpdirCreated (path : String)
  | processRun (argv : List String)
  | tmpdirRemoved (path : String)
deriving DecidableEq

/-- Model of the `with tempfile.TemporaryDirectory() as tmp` block: the
directory is created, the body runs, and the directory is removed when the
block exits — whether the body returned a value or raised (the body result
is an `Except` value either way, and the removal event follows the body
events unconditionally). -/
def withTemporaryDirectory {α : Type} (tmp_name : String)
    (body : String → Except PyError α × List FsEvent) :
    Except PyError α × List FsEvent :=
  let r := body tmp_name
  (r.1, FsEvent.tmpdirCreated tmp_name :: (r.2 ++ [FsEvent.tmpdirRemoved tmp_name]))

/-- Embedding of `_denoise_helper`: inside a temporary directory, build
the command, run the external process, and normalise its output.  The
first component is the returned (table, representative sequences) pair or
the raised error; the second is the event trace of the invocation. -/
def _denoise_helper (env : ExtEnv) (tmp_name : String)
    (demultiplexed_seqs : String) (p : DenoiseParams)
    (reference_seqs : Option String) :
    Except PyError (BiomTable × List (String × String)) × List FsEvent :=
  withTemporaryDirectory tmp_name (fun tmp =>
    (denoiseSteps env p.hashed_feature_ids,
     [FsEvent.processRun (deblurCmd demultiplexed_seqs tmp p reference_seqs)]))

/-- Embedding of `denoise_16S`: forwards to `_denoise_helper` without a
reference. -/
def denoise_16S (env : ExtEnv) (tmp_name : String)
    (demultiplexed_seqs : String) (p : DenoiseParams) :
    Except PyError (BiomTable × List (String × String)) × List FsEvent :=
  _denoise_helper env tmp_name demultiplexed_seqs p none

/-- Embedding of `denoise_other`: forwards to `_denoise_helper` with the
required reference sequences. -/
def denoise_other (env : ExtEnv) (tmp_name : String)
    (demultiplexed_seqs : String) (reference_seqs : String)
    (p : DenoiseParams) :
    Except PyError (BiomTable × List (String × String)) × List FsEvent :=
  _denoise_helper env tmp_name demultiplexed_seqs p (some reference_seqs)

/-- A character is a lower-case hexadecimal digit. -/
def isHexChar (c : Char) : Bool :=
  ((48 ≤ c.toNat) && (c.toNat ≤ 57)) || ((97 ≤ c.toNat) && (c.toNat ≤ 102))

set_option maxRecDepth 100000

/-!
Theorems.  The first two check the MD5 implementation against the test
vectors of RFC 1321.
-/

theorem md5hex_empty : md5hex "" = "d41d8cd98f00b204e9800998ecf8427e" := by decide

theorem md5hex_abc : md5hex "abc" = "900150983cd24fb0d6963f7d28e17f72" := by decide

theorem _load_table_ok_inv (file : Option BiomTable) (t1 : BiomTable)
    (h : _load_table file = .ok t1) :
    ∃ t0 : BiomTable, file = some t0 ∧ t0.sampleIds.Nodup ∧ t0.obsIds.Nodup ∧
      t1 = BiomTable.mk (t0.sampleIds.map (fun id_ => pySplitFirst '_' id_))
        t0.obsIds t0.data := by
  cases file with
  | none => simp [_load_table, biom_load_table] at h
  | some t0 =>
    by_cases hnd : t0.sampleIds.Nodup ∧ t0.obsIds.Nodup
    · simp [_load_table, biom_load_table, hnd, BiomTable.update_ids,
        BiomTable.ids] at h
      exact ⟨t0, rfl, hnd.1, hnd.2, h.symm⟩
    · simp [_load_table, biom_load_table, hnd] at h

/-- Mapping first projections over a pairing recovers the keys. -/
theorem map_fst_pair {a b : Type} (f : a → b) (l : List a) :
    (l.map (fun i => (i, f i))).map Prod.fst = l := by
  induction l with
  | nil => rfl
  | cons x xs ih => simp [ih]

/-- Mapping second projections over the identity pairing recovers the list. -/
theorem map_snd_diag {a : Type} (l : List a) :
    (l.map (fun i => (i, i))).map Prod.snd = l := by
  induction l with
  | nil => rfl
  | cons x xs ih => simp [ih]

/-- Mapping second projections over a pairing gives the mapped values. -/
theorem map_snd_pair {a b : Type} (f : a → b) (l : List a) :
    (l.map (fun i => (i, f i))).map Prod.snd = l.map f := by
  induction l with
  | nil => rfl
  | cons x xs ih => simp [ih]

/-- Inversion of a normal return of the pipeline: the subprocess exited
with status zero, the output file held a valid table, and the returned
table and observation mapping are exactly the cleaned and (possibly)
hashed forms of it. -/
theorem denoiseSteps_ok_inv (env : ExtEnv) (hashed : Bool) (t : BiomTable)
    (reps : List (String × String))
    (h : denoiseSteps env hashed = .ok (t, reps)) :
    env.returncode = 0 ∧
    ∃ t0 : BiomTable, env.referenceHitBiom = some t0 ∧
      t0.sampleIds.Nodup ∧ t0.obsIds.Nodup ∧
      t.sampleIds = t0.sampleIds.map (fun id_ => pySplitFirst '_' id_) ∧
      t.data = t0.data ∧
      reps.map Prod.fst = t0.obsIds ∧
      t.obsIds = reps.map Prod.snd ∧
      (hashed = true → t.obsIds = t0.obsIds.map md5hex ∧
        reps = t0.obsIds.map (fun id_ => (id_, md5hex id_))) ∧
      (hashed = false → t.obsIds = t0.obsIds ∧
        reps = t0.obsIds.map (fun id_ => (id_, id_))) := by
  by_cases hrc : env.returncode = 0
  · simp only [denoiseSteps, subprocess_run, hrc, if_true, eq_self_iff_true] at h
    cases hl : _load_table env.referenceHitBiom with
    | error e => rw [hl] at h; exact Except.noConfusion h
    | ok t1 =>
      rw [hl] at h
      obtain ⟨t0, hf, hnd1, hnd2, ht1⟩ := _load_table_ok_inv _ _ hl
      cases hashed with
      | false =>
        simp only [Bool.false_eq_true, if_false, Except.ok.injEq,
          Prod.mk.injEq] at h
        obtain ⟨ht, hreps⟩ := h
        subst ht; subst hreps; subst ht1
        refine ⟨hrc, t0, hf, hnd1, hnd2, rfl, rfl, ?_, ?_,
          fun hh => Bool.noConfusion hh, fun _ => ⟨rfl, rfl⟩⟩
        · exact map_fst_pair (fun i => i) t0.obsIds
        · exact (map_snd_diag t0.obsIds).symm
      | true =>
        simp only [if_true, _hash_ids, BiomTable.update_ids, BiomTable.ids,
          Except.ok.injEq, Prod.mk.injEq] at h
        obtain ⟨ht, hreps⟩ := h
        subst ht; subst hreps; subst ht1
        refine ⟨hrc, t0, hf, hnd1, hnd2, rfl, rfl, ?_, ?_,
          fun _ => ⟨rfl, rfl⟩, fun hh => Bool.noConfusion hh⟩
        · exact map_fst_pair (fun id_ => md5hex id_) t0.obsIds
        · exact (map_snd_pair (fun id_ => md5hex id_) t0.obsIds).symm
  · simp [denoiseSteps, subprocess_run, hrc] at h

/-- Splitting never produces an empty field list. -/
theorem pySplit_ne_nil (sep : Char) (l : List Char) : pySplit sep l ≠ [] := by
  cases l with
  | nil => simp [pySplit]
  | cons c rest =>
    simp only [pySplit]
    split
    · simp
    · split <;> simp

/-- The separator does not occur in the first field of a split. -/
theorem sep_not_mem_pySplit_head (sep : Char) (l : List Char) :
    sep ∉ (pySplit sep l).headD [] := by
  induction l with
  | nil => simp [pySplit]
  | cons c rest ih =>
    simp only [pySplit]
    by_cases hc : c = sep
    · simp [hc]
    · rw [if_neg hc]
      cases hps : pySplit sep rest with
      | nil => exact absurd hps (pySplit_ne_nil sep rest)
      | cons t ts =>
        rw [hps] at ih
        simp only [List.headD_cons] at ih ⊢
        simp only [List.mem_cons, not_or]
        exact ⟨fun hsc => hc hsc.symm, ih⟩

/-- The separator does not occur in the leading token. -/
theorem sep_not_mem_pySplitFirst (sep : Char) (s : String) :
    sep ∉ (pySplitFirst sep s).data :=
  sep_not_mem_pySplit_head sep s.data

/-- Hex rendering doubles the byte count. -/
theorem flatten_map_byteHexChars_length (l : List Nat) :
    ((l.map byteHexChars).flatten).length = 2 * l.length := by
  induction l with
  | nil => rfl
  | cons b bs ih =>
    simp only [List.map_cons, List.flatten_cons, List.length_append,
      List.length_cons, byteHexChars, List.length_nil, ih]
    omega

/-- An MD5 hexadecimal digest has exactly 32 characters. -/
theorem md5hex_length (s : String) : (md5hex s).length = 32 := by
  have h16 : (md5Digest (utf8Encode s)).length = 16 := by
    simp [md5Digest, md5Final, le4]
  have : (md5hex s).length =
      (((md5Digest (utf8Encode s)).map byteHexChars).flatten).length := rfl
  rw [this, flatten_map_byteHexChars_length, h16]

/-- The sixteen hex digit characters are hexadecimal. -/
theorem hexDigitChar_isHex : ∀ n, n < 16 → isHexChar (hexDigitChar n) = true := by
  decide

/-- The two characters rendering a byte are hexadecimal. -/
theorem byteHexChars_isHex (b : Nat) : ∀ c ∈ byteHexChars b, isHexChar c = true := by
  intro c hc
  simp only [byteHexChars, List.mem_cons, List.not_mem_nil, or_false] at hc
  rcases hc with h | h
  · subst h; exact hexDigitChar_isHex _ (Nat.mod_lt _ (by norm_num))
  · subst h; exact hexDigitChar_isHex _ (Nat.mod_lt _ (by norm_num))

/-- Every character of an MD5 hexadecimal digest is a hex digit. -/
theorem md5hex_isHex (s : String) : ∀ c ∈ (md5hex s).data, isHexChar c = true := by
  intro c hc
  have hc2 : c ∈ ((md5Digest (utf8Encode s)).map byteHexChars).flatten := hc
  obtain ⟨l, hl, hcl⟩ := List.mem_flatten.mp hc2
  obtain ⟨b, _, rfl⟩ := List.mem_map.mp hl
  exact byteHexChars_isHex b c hcl

/-- C2: under the hashed policy, every feature identifier of the returned
table is the 32-character hexadecimal MD5 digest of the UTF-8 bytes of the
original raw sequence, every representative-sequence record carries the
digest of its own sequence, and the digest function applied to the paired
sequence reproduces the identifier. -/
theorem hashed_feature_ids_are_md5_digests (env : ExtEnv) (t : BiomTable)
    (reps : List (String × String))
    (h : denoiseSteps env true = .ok (t, reps)) :
    (∀ pr ∈ reps, pr.2 = md5hex pr.1) ∧
    t.obsIds = reps.map (fun pr => md5hex pr.1) ∧
    ∀ id_ ∈ t.obsIds, id_.length = 32 ∧ ∀ c ∈ id_.data, isHexChar c = true := by
  obtain ⟨-, t0, hf, -, -, -, -, -, -, himp, -⟩ :=
    denoiseSteps_ok_inv _ _ _ _ h
  obtain ⟨hobs, hreps⟩ := himp rfl
  refine ⟨?_, ?_, ?_⟩
  · intro pr hpr
    rw [hreps] at hpr
    obtain ⟨i, hi, rfl⟩ := List.mem_map.mp hpr
    rfl
  · rw [hobs, hreps, List.map_map]
    rfl
  · intro id_ hid
    rw [hobs] at hid
    obtain ⟨i, hi, rfl⟩ := List.mem_map.mp hid
    exact ⟨md5hex_length i, md5hex_isHex i⟩

theorem hashed_feature_ids_are_md5_digests_witness :
    (∀ pr ∈ [("ACGT", "f1f8f4bf413b16ad135722aa4591043e")], pr.2 = md5hex pr.1) ∧
    (BiomTable.mk ["S1"] ["f1f8f4bf413b16ad135722aa4591043e"] [[7]]).obsIds =
      [("ACGT", "f1f8f4bf413b16ad135722aa4591043e")].map (fun pr => md5hex pr.1) ∧
    ∀ id_ ∈ (BiomTable.mk ["S1"] ["f1f8f4bf413b16ad135722aa4591043e"] [[7]]).obsIds,
      id_.length = 32 ∧ ∀ c ∈ id_.data, isHexChar c = true :=
  hashed_feature_ids_are_md5_digests
    (ExtEnv.mk 0 (some (BiomTable.mk ["S1_001"] ["ACGT"] [[7]])))
    (BiomTable.mk ["S1"] ["f1f8f4bf413b16ad135722aa4591043e"] [[7]])
    [("ACGT", "f1f8f4bf413b16ad135722aa4591043e")] (by rfl)

/-- C3: on every normal return, the sample identifiers of the table are
exactly the leading tokens (before the first underscore) of the original
sample identifiers of the externally produced table, position by position,
and hence no returned sample identifier contains the underscore
delimiter. -/
theorem sample_ids_are_leading_tokens (env : ExtEnv) (hashed : Bool)
    (t : BiomTable) (reps : List (String × String))
    (h : denoiseSteps env hashed = .ok (t, reps)) :
    ∃ t0 : BiomTable, env.referenceHitBiom = some t0 ∧
      t.sampleIds = t0.sampleIds.map (fun id_ => pySplitFirst '_' id_) ∧
      ∀ sid ∈ t.sampleIds, '_' ∉ sid.data := by
  obtain ⟨-, t0, hf, -, -, hsmp, -, -, -, -, -⟩ :=
    denoiseSteps_ok_inv _ _ _ _ h
  refine ⟨t0, hf, hsmp, ?_⟩
  intro sid hsid
  rw [hsmp] at hsid
  obtain ⟨o, ho, rfl⟩ := List.mem_map.mp hsid
  exact sep_not_mem_pySplitFirst '_' o

theorem sample_ids_are_leading_tokens_witness :
    ∃ t0 : BiomTable,
      (ExtEnv.mk 0 (some (BiomTable.mk ["S1_001", "S2_002"] ["ACGT"] [[1, 2]]))).referenceHitBiom =
        some t0 ∧
      (BiomTable.mk ["S1", "S2"] ["ACGT"] [[1, 2]]).sampleIds =
        t0.sampleIds.map (fun id_ => pySplitFirst '_' id_) ∧
      ∀ sid ∈ (BiomTable.mk ["S1", "S2"] ["ACGT"] [[1, 2]]).sampleIds,
        '_' ∉ sid.data :=
  sample_ids_are_leading_tokens
    (ExtEnv.mk 0 (some (BiomTable.mk ["S1_001", "S2_002"] ["ACGT"] [[1, 2]])))
    false (BiomTable.mk ["S1", "S2"] ["ACGT"] [[1, 2]])
    [("ACGT", "ACGT")] (by rfl)

/-- C4: the argument list handed to the external process is exactly the
tool name, the workflow selector, the fixed flag/value pairs with every
parameter rendered by its string form (the trim-length sentinel included,
with no special-casing), then the fixed -w flag; the positive-reference
flag and its value are appended exactly when a reference was supplied, and
nothing is appended when it was not.  The built list is the one recorded
by the process-run event of the invocation. -/
theorem deblur_cmd_shape (seqs tmp : String) (p : DenoiseParams) :
    (deblurCmd seqs tmp p none =
      ["deblur", "workflow", "--seqs-fp", seqs, "--output-dir", tmp,
       "--mean-error", p.mean_error.str, "--indel-prob", p.indel_prob.str,
       "--indel-max", toString p.indel_max,
       "--trim-length", toString p.trim_length,
       "--min-reads", toString p.min_reads,
       "--min-size", toString p.min_size, "-w"]) ∧
    (∀ r : String, deblurCmd seqs tmp p (some r) =
      ["deblur", "workflow", "--seqs-fp", seqs, "--output-dir", tmp,
       "--mean-error", p.mean_error.str, "--indel-prob", p.indel_prob.str,
       "--indel-max", toString p.indel_max,
       "--trim-length", toString p.trim_length,
       "--min-reads", toString p.min_reads,
       "--min-size", toString p.min_size, "-w", "--pos-ref-fp", r]) ∧
    (∀ env : ExtEnv, ∀ tmp_name : String, ∀ reference_seqs : Option String,
      FsEvent.processRun (deblurCmd seqs tmp_name p reference_seqs) ∈
        (_denoise_helper env tmp_name seqs p reference_seqs).2) := by
  refine ⟨rfl, fun r => rfl, fun env tmp_name reference_seqs => ?_⟩
  simp [_denoise_helper, withTemporaryDirectory]

/-- C5: a non-zero exit status of the external process raises the
process error immediately, and the invocation returns no table and no
sequence output. -/
theorem nonzero_exit_aborts_without_output (env : ExtEnv)
    (tmp_name demultiplexed_seqs : String) (p : DenoiseParams)
    (reference_seqs : Option String) (h : env.returncode ≠ 0) :
    (_denoise_helper env tmp_name demultiplexed_seqs p reference_seqs).1 =
      .error (.calledProcessError env.returncode) := by
  have h2 : (_denoise_helper env tmp_name demultiplexed_seqs p reference_seqs).1 =
      denoiseSteps env p.hashed_feature_ids := rfl
  rw [h2]
  simp [denoiseSteps, subprocess_run, h]

theorem nonzero_exit_aborts_without_output_witness :
    (ExtEnv.mk 1 (some (BiomTable.mk ["S1_001"] ["ACGT"] [[1]]))).returncode ≠ 0 ∧
    (_denoise_helper (ExtEnv.mk 1 (some (BiomTable.mk ["S1_001"] ["ACGT"] [[1]])))
        "tmp" "seqs"
        (DenoiseParams.mk (-1) (PyFloat.mk "0.005") (PyFloat.mk "0.01") 3 10 2 1 true)
        none).1 =
      .error (.calledProcessError 1) :=
  ⟨by decide,
   nonzero_exit_aborts_without_output
     (ExtEnv.mk 1 (some (BiomTable.mk ["S1_001"] ["ACGT"] [[1]])))
     "tmp" "seqs"
     (DenoiseParams.mk (-1) (PyFloat.mk "0.005") (PyFloat.mk "0.01") 3 10 2 1 true)
     none (by decide)⟩

/-- C6: under the unhashed policy the feature-identifier mapping is the
identity: the feature identifiers of the returned table are exactly the
original raw sequences, and every representative-sequence record carries
an identifier equal to its own sequence string. -/
theorem unhashed_feature_ids_identity (env : ExtEnv) (t : BiomTable)
    (reps : List (String × String))
    (h : denoiseSteps env false = .ok (t, reps)) :
    ∃ t0 : BiomTable, env.referenceHitBiom = some t0 ∧
      t.obsIds = t0.obsIds ∧
      (∀ pr ∈ reps, pr.2 = pr.1) ∧
      reps.map Prod.snd = t0.obsIds := by
  obtain ⟨-, t0, hf, -, -, -, -, -, -, -, himp⟩ :=
    denoiseSteps_ok_inv _ _ _ _ h
  obtain ⟨hobs, hreps⟩ := himp rfl
  refine ⟨t0, hf, hobs, ?_, ?_⟩
  · intro pr hpr
    rw [hreps] at hpr
    obtain ⟨i, hi, rfl⟩ := List.mem_map.mp hpr
    rfl
  · rw [hreps]
    exact map_snd_diag t0.obsIds

theorem unhashed_feature_ids_identity_witness :
    ∃ t0 : BiomTable,
      (ExtEnv.mk 0 (some (BiomTable.mk ["S1_001"] ["ACGT", "TTGG"] [[1], [2]]))).referenceHitBiom =
        some t0 ∧
      (BiomTable.mk ["S1"] ["ACGT", "TTGG"] [[1], [2]]).obsIds = t0.obsIds ∧
      (∀ pr ∈ [("ACGT", "ACGT"), ("TTGG", "TTGG")], pr.2 = pr.1) ∧
      [("ACGT", "ACGT"), ("TTGG", "TTGG")].map Prod.snd = t0.obsIds :=
  unhashed_feature_ids_identity
    (ExtEnv.mk 0 (some (BiomTable.mk ["S1_001"] ["ACGT", "TTGG"] [[1], [2]])))
    (BiomTable.mk ["S1"] ["ACGT", "TTGG"] [[1], [2]])
    [("ACGT", "ACGT"), ("TTGG", "TTGG")] (by rfl)

/-- C7: on every exit path of denoise_16S and denoise_other — the trace is
the same whether the result component is a value or an error — the
per-invocation temporary directory is created, the process is run, and the
directory is removed before control returns. -/
theorem tmpdir_removed_on_every_path (env : ExtEnv)
    (tmp_name demultiplexed_seqs reference_seqs : String) (p : DenoiseParams) :
    (denoise_16S env tmp_name demultiplexed_seqs p).2 =
      [FsEvent.tmpdirCreated tmp_name,
       FsEvent.processRun (deblurCmd demultiplexed_seqs tmp_name p none),
       FsEvent.tmpdirRemoved tmp_name] ∧
    (denoise_other env tmp_name demultiplexed_seqs reference_seqs p).2 =
      [FsEvent.tmpdirCreated tmp_name,
       FsEvent.processRun
         (deblurCmd demultiplexed_seqs tmp_name p (some reference_seqs)),
       FsEvent.tmpdirRemoved tmp_name] :=
  ⟨rfl, rfl⟩

/-- C10 counterexample: with samples S1_001 and S1_002 the in-place
identifier update does not fail — the operation returns normally, and the
returned sample axis carries the identifier S1 twice (a duplicated axis,
not a merge and not an error). -/
theorem duplicate_sample_tokens_no_error :
    denoiseSteps (ExtEnv.mk 0 (some (BiomTable.mk ["S1_001", "S1_002"] ["ACGT"]
        [[1], [2]]))) false =
      .ok (BiomTable.mk ["S1", "S1"] ["ACGT"] [[1], [2]], [("ACGT", "ACGT")]) ∧
    ¬ (BiomTable.mk ["S1", "S1"] ["ACGT"] [[1], [2]]).sampleIds.Nodup :=
  ⟨by rfl, by decide⟩

/-- C10 (amended): when two sample identifiers of the externally produced
table share the same leading token (as S1_001 and S1_002 both map to S1),
the cleanup mapping assigns both the same new identifier and the in-place
update applies it with no uniqueness check: the operation returns normally
and the returned sample axis is the token list with the duplicate kept —
no error is raised and nothing is merged. -/
theorem duplicate_sample_tokens_pass_through (env : ExtEnv) (hashed : Bool)
    (t0 : BiomTable) (h0 : env.returncode = 0)
    (h1 : env.referenceHitBiom = some t0)
    (h2 : t0.sampleIds.Nodup) (h3 : t0.obsIds.Nodup) :
    (pySplitFirst '_' "S1_001" = "S1" ∧ pySplitFirst '_' "S1_002" = "S1") ∧
    ∃ t reps, denoiseSteps env hashed = .ok (t, reps) ∧
      t.sampleIds = t0.sampleIds.map (fun id_ => pySplitFirst '_' id_) := by
  refine ⟨⟨by rfl, by rfl⟩, ?_⟩
  cases hashed with
  | false =>
    refine ⟨BiomTable.mk (t0.sampleIds.map (fun id_ => pySplitFirst '_' id_))
      t0.obsIds t0.data, t0.obsIds.map (fun i => (i, i)), ?_, rfl⟩
    simp [denoiseSteps, subprocess_run, h0, _load_table, biom_load_table, h1,
      h2, h3, BiomTable.update_ids, BiomTable.ids]
  | true =>
    refine ⟨BiomTable.mk (t0.sampleIds.map (fun id_ => pySplitFirst '_' id_))
      (t0.obsIds.map (fun id_ => md5hex id_)) t0.data,
      t0.obsIds.map (fun id_ => (id_, md5hex id_)), ?_, rfl⟩
    simp [denoiseSteps, subprocess_run, h0, _load_table, biom_load_table, h1,
      h2, h3, BiomTable.update_ids, BiomTable.ids, _hash_ids]

theorem duplicate_sample_tokens_pass_through_witness :
    (pySplitFirst '_' "S1_001" = "S1" ∧ pySplitFirst '_' "S1_002" = "S1") ∧
    ∃ t reps,
      denoiseSteps (ExtEnv.mk 0 (some (BiomTable.mk ["S1_001", "S1_002"]
        ["ACGT"] [[1], [2]]))) false = .ok (t, reps) ∧
      t.sampleIds =
        (BiomTable.mk ["S1_001", "S1_002"] ["ACGT"] [[1], [2]]).sampleIds.map
          (fun id_ => pySplitFirst '_' id_) :=
  duplicate_sample_tokens_pass_through
    (ExtEnv.mk 0 (some (BiomTable.mk ["S1_001", "S1_002"] ["ACGT"] [[1], [2]])))
    false (BiomTable.mk ["S1_001", "S1_002"] ["ACGT"] [[1], [2]])
    rfl rfl (by decide) (by decide)
